import Mathlib

/-!
Shallow embedding of `src/lab_5_scrapper/scrapper.py` (single-site crawler:
configuration validation, rate-limited fetching, seed-driven URL discovery,
article extraction, storage preparation), together with theorems settling the
specification claims about it.

Conventions of the embedding:
* Python values reaching the validator keep their dynamic type as `PyVal`.
* Python exceptions are the error side of `Except PyErr _`.
* The HTTP boundary is a function `net : String → FetchOutcome`; a parsed
  response body is modelled directly as a DOM tree (`Node`), abstracting
  `BeautifulSoup(response.text, 'lxml')`.
* `random.randrange(3)` is modelled as `randrange3` applied to the raw
  entropy drawn from the random source.
-/

namespace Scrapper

/-- Python exception kinds raised by the embedded code. The first seven mirror
the exception classes declared at the top of `scrapper.py`; the rest are
built-in Python exceptions the code can raise (`requests.get` failures,
`link['href']` on a tag without the attribute, `re.match` on a non-string,
`os.remove` on a directory or vanished file). -/
inductive PyErr where
  | incorrectSeedURLError
  | incorrectNumberOfArticlesError
  | numberOfArticlesOutOfRangeError
  | incorrectHeadersError
  | incorrectEncodingError
  | incorrectTimeoutError
  | incorrectVerifyError
  | typeError
  | keyError
  | requestException
  | isADirectoryError
  | fileNotFoundError
  deriving DecidableEq, Repr

/-- Dynamically-typed Python values as they arrive from `json.load`. -/
inductive PyVal where
  | none
  | bool (b : Bool)
  | int (n : Int)
  | str (s : String)
  | list (xs : List PyVal)
  | dict (xs : List (PyVal × PyVal))

/-- `isinstance(v, int)`: in Python `bool` is a subclass of `int`, so `True`
and `False` count as integers. -/
def pyIsInt : PyVal → Bool
  | .int _ => true
  | .bool _ => true
  | _ => false

/-- The integer value of an int-like Python value (`True` is `1`, `False` is
`0`); irrelevant default `0` on other constructors, which the code only
compares after an `isinstance` guard. -/
def pyToInt : PyVal → Int
  | .int n => n
  | .bool b => if b then 1 else 0
  | _ => 0

/-- `isinstance(v, list)`. -/
def pyIsList : PyVal → Bool
  | .list _ => true
  | _ => false

/-- `isinstance(v, dict)`. -/
def pyIsDict : PyVal → Bool
  | .dict _ => true
  | _ => false

/-- `isinstance(v, str)`. -/
def pyIsStr : PyVal → Bool
  | .str _ => true
  | _ => false

/-- `isinstance(v, bool)` (strict: integers are not bools). -/
def pyIsBool : PyVal → Bool
  | .bool _ => true
  | _ => false

/-- The `ConfigDTO` produced by `Config._extract_config_content`: the seven
JSON fields, still dynamically typed, exactly as the validator receives them. -/
structure ConfigDTO where
  seed_urls : PyVal
  total_articles : PyVal
  headers : PyVal
  encoding : PyVal
  timeout : PyVal
  should_verify_certificate : PyVal
  headless_mode : PyVal

/-- The tail of the seed-URL regex `r'https?://(www)?\.21mm.ru+'` after the
optional `(www)` group: a literal `.`, the literal `21mm`, then `.` (an
unescaped wildcard matching any character except a newline), then `r`
followed by at least one `u`. `re.match` only anchors at the start, so any
remaining characters are ignored. -/
def tailMatch : List Char → Bool
  | '.' :: '2' :: '1' :: 'm' :: 'm' :: c :: 'r' :: 'u' :: _ => c != '\n'
  | _ => false

/-- The `(www)?` group of the seed-URL regex: greedily consume `www` and try
the tail, falling back (regex backtracking) to the tail at the original
position. -/
def afterScheme : List Char → Bool
  | 'w' :: 'w' :: 'w' :: rest =>
      tailMatch rest || tailMatch ('w' :: 'w' :: 'w' :: rest)
  | rest => tailMatch rest

/-- `re.match(r'https?://(www)?\.21mm.ru+', s)` viewed as a boolean: the
scheme part `https?://` (the optional `s` is greedy; if taking it makes `://`
fail, the backtracked alternative also fails since `:` is not `s`), then the
rest of the pattern. -/
def matchSeedURL : List Char → Bool
  | 'h' :: 't' :: 't' :: 'p' :: 's' :: ':' :: '/' :: '/' :: rest => afterScheme rest
  | 'h' :: 't' :: 't' :: 'p' :: ':' :: '/' :: '/' :: rest => afterScheme rest
  | _ => false

/-- Truthiness of `re.match(pattern, s)` for the fixed seed-URL pattern. -/
def seedOk (s : String) : Bool := matchSeedURL s.data

/-- `all(re.match(pattern, seed_url) for seed_url in xs)`: lazily, in order;
a non-matching string makes the whole conjunction `False`; a non-string
entry raises `TypeError` from `re.match` before its truthiness is used. -/
def seeds_all_match : List PyVal → Except PyErr Bool
  | [] => .ok true
  | PyVal.str s :: rest => if seedOk s then seeds_all_match rest else .ok false
  | _ :: _ => .error .typeError

/-- The condition of the first validator check,
`isinstance(config.seed_urls, list) and all(re.match(...) ...)`: `and`
short-circuits, so a non-list yields `False` without touching the entries. -/
def seed_stage (v : PyVal) : Except PyErr Bool :=
  match v with
  | PyVal.list xs => seeds_all_match xs
  | _ => .ok false

/-- `Config._validate_config_content`: the seven checks in source order, each
raising its dedicated exception kind; a raised exception aborts the whole
validation (fail-fast, no partial acceptance). -/
def validate_config_content (d : ConfigDTO) : Except PyErr Unit :=
  match seed_stage d.seed_urls with
  | .error e => .error e
  | .ok ok =>
    if ok = false then .error .incorrectSeedURLError
    else if ¬ pyIsInt d.total_articles = true ∨ pyToInt d.total_articles ≤ 0 then
      .error .incorrectNumberOfArticlesError
    else if ¬ (0 < pyToInt d.total_articles ∧ pyToInt d.total_articles ≤ 150) then
      .error .numberOfArticlesOutOfRangeError
    else if ¬ pyIsDict d.headers = true then .error .incorrectHeadersError
    else if ¬ pyIsStr d.encoding = true then .error .incorrectEncodingError
    else if ¬ pyIsInt d.timeout = true ∨
        ¬ (0 ≤ pyToInt d.timeout ∧ pyToInt d.timeout ≤ 60) then
      .error .incorrectTimeoutError
    else if ¬ pyIsBool d.should_verify_certificate = true ∨
        ¬ pyIsBool d.headless_mode = true then
      .error .incorrectVerifyError
    else .ok ()

/-- A validated configuration, as held by `Config` after
`_validate_config_content` succeeded: the accessors `get_seed_urls`,
`get_num_articles`, `get_headers`, `get_encoding`, `get_timeout`,
`get_verify_certificate`, `get_headless_mode` are plain field reads. -/
structure Config where
  seed_urls : List String
  num_articles : Int
  headers : List (String × String)
  encoding : String
  timeout : Int
  should_verify_certificate : Bool
  headless_mode : Bool

mutual
/-- A parsed HTML document tree: the abstraction of what
`BeautifulSoup(response.text, 'lxml')` yields. Attributes are kept as the
raw attribute list of each element; children are a `NodeList` (a sibling
inductive of `Node`, isomorphic to `List Node`). -/
inductive Node where
  | elem (tag : String) (attrs : List (String × String)) (children : NodeList)
  | text (s : String)
inductive NodeList where
  | nil
  | cons (head : Node) (tail : NodeList)
end

/-- Build a `NodeList` from a list of nodes (fixture convenience). -/
def nlOf : List Node → NodeList
  | [] => NodeList.nil
  | n :: rest => NodeList.cons n (nlOf rest)

mutual
/-- All descendants of a node in document order (the node itself excluded):
the search space of BeautifulSoup's `find_all` / `select`. -/
def descendants : Node → List Node
  | Node.text _ => []
  | Node.elem _ _ cs => descList cs
/-- Traversal over a `NodeList` of siblings, each node followed by its own
descendants. -/
def descList : NodeList → List Node
  | NodeList.nil => []
  | NodeList.cons n rest => n :: (descendants n ++ descList rest)
end

/-- Attribute lookup on a tag, `tag.get(key)`. -/
def attrOf (n : Node) (key : String) : Option String :=
  match n with
  | Node.elem _ attrs _ => (attrs.find? (fun kv => kv.1 = key)).map (fun kv => kv.2)
  | Node.text _ => none

/-- Tag-name test. -/
def hasTag (t : String) (n : Node) : Bool :=
  match n with
  | Node.elem tag _ _ => tag = t
  | Node.text _ => false

/-- The matcher of `find_all('div', {'class': c})` where `c` holds a space:
BeautifulSoup compares such a filter against the space-joined value of the
multi-valued `class` attribute, i.e. the raw class string. -/
def divWithClass (c : String) (n : Node) : Bool :=
  hasTag "div" n && attrOf n "class" == some c

/-- `article_bs.find_all('div', {'class': 'figcaption promo-link'})`:
all matching containers of the document, in document order. -/
def promoDivs (doc : Node) : List Node :=
  (descendants doc).filter (divWithClass "figcaption promo-link")

/-- `each.select('a')`: all descendant anchors of a tag, in document order. -/
def anchorsOf (n : Node) : List Node :=
  (descendants n).filter (hasTag "a")

/-- The `url_pattern` attribute set in `Crawler.__init__`. -/
def url_pattern : String := "https://www.21mm.ru"

/-- `link['href']`: the subscript access on a tag, raising `KeyError` when
the attribute is absent. -/
def href_of (link : Node) : Except PyErr String :=
  match attrOf link "href" with
  | some h => Except.ok h
  | Option.none => Except.error PyErr.keyError

/-- `Crawler._extract_url`: start from `url = ''`; for every matching
container, for every anchor inside it, overwrite `url` with that anchor's
`href`; return `self.url_pattern + url` — plain string concatenation of the
origin with the last href seen. -/
def extract_url (doc : Node) : Except PyErr String := do
  let links := promoDivs doc
  let url ← links.foldlM (fun u each =>
      (anchorsOf each).foldlM (fun _ link => href_of link) u) ""
  pure (url_pattern ++ url)

/-- An HTTP response as the code observes it: `status` drives `response.ok`
and `body` stands for the parsed `response.text`. -/
structure Response where
  status : Nat
  body : Node

/-- `response.ok` of the requests library: true exactly when
`raise_for_status()` would not raise, i.e. the status code is below 400. -/
def Response.ok (r : Response) : Bool := r.status < 400

/-- Outcome of one attempted GET at the HTTP boundary: either a response
(any status) or a raised requests exception (connection error / timeout). -/
inductive FetchOutcome where
  | success (resp : Response)
  | raised

/-- One politeness-throttled request carries a sleep and a GET. -/
structure GetReq where
  url : String
  headers : List (String × String)
  timeout : Int
  verify : Bool

/-- Externally observable effects of `make_request`. -/
inductive Event where
  | sleepEv (duration : Nat)
  | getEv (req : GetReq)

/-- Is the event an issued GET request? -/
def Event.isGet : Event → Bool
  | Event.getEv _ => true
  | Event.sleepEv _ => false

/-- `random.randrange(3)` applied to the raw draw `r` from the random
source: a uniform source makes the result uniform over `{0, 1, 2}`. -/
def randrange3 (r : Nat) : Nat := r % 3

/-- `make_request(url, config)`: sleep `randrange(3)` time units, then issue
exactly one GET with the configured headers, timeout and verification flag;
the requests exception of a failed connection propagates (there is no
`try`/`except`), a completed response is returned whatever its status. -/
def make_request (net : String → FetchOutcome) (r : Nat) (url : String)
    (config : Config) : List Event × Except PyErr Response :=
  ([Event.sleepEv (randrange3 r),
    Event.getEv ⟨url, config.headers, config.timeout, config.should_verify_certificate⟩],
   match net url with
   | FetchOutcome.success resp => Except.ok resp
   | FetchOutcome.raised => Except.error PyErr.requestException)

/-- The mutable state of a `Crawler`: its configuration and the accumulated
`self.urls` (the `url_pattern` attribute is the constant `url_pattern`). -/
structure Crawler where
  config : Config
  urls : List String

/-- `Crawler.__init__`. -/
def Crawler.init (config : Config) : Crawler := ⟨config, []⟩

/-- `Crawler.get_search_urls`. -/
def get_search_urls (c : Crawler) : List String := c.config.seed_urls

/-- One iteration of the loop in `Crawler.find_articles`: fetch the seed
page (the accumulator also counts iterations to draw fresh randomness);
`continue` when `response.ok` is falsy, otherwise append the single URL
`_extract_url` returns for the page. -/
def crawl_step (net : String → FetchOutcome) (rng : Nat → Nat) (config : Config)
    (acc : List String × Nat) (url : String) : Except PyErr (List String × Nat) :=
  match (make_request net (rng acc.2) url config).2 with
  | Except.error e => Except.error e
  | Except.ok resp =>
    if resp.ok then do
      let u ← extract_url resp.body
      pure (acc.1 ++ [u], acc.2 + 1)
    else pure (acc.1, acc.2 + 1)

/-- `Crawler.find_articles`: iterate the seed URLs in order, skip pages whose
fetch completed with a failing status, collect the per-page URLs, and extend
`self.urls`; any raised exception (requests failure, `KeyError`) propagates. -/
def find_articles (net : String → FetchOutcome) (rng : Nat → Nat)
    (c : Crawler) : Except PyErr Crawler := do
  let res ← (get_search_urls c).foldlM (crawl_step net rng c.config) ([], 0)
  pure { c with urls := c.urls ++ res.1 }

/-- The article record of `core_utils.article.article.Article`.
Modelled from the spec: `core_utils` is not under `src/`; per spec §3 an
ArticleRecord holds the absolute `url` and positive `id` fixed at creation
and a `text` field, initially the empty string, populated by extraction. -/
structure Article where
  url : String
  article_id : Int
  text : String
  deriving DecidableEq, Repr

/-- `Article(full_url, article_id)`. Modelled from the spec: creation sets
`url` and `id` and leaves `text` initially empty (spec §3). -/
def Article.init (url : String) (article_id : Int) : Article := ⟨url, article_id, ""⟩

mutual
/-- BeautifulSoup's `.text` property of a tag: the concatenation of every
string in its subtree, in document order. -/
def node_text : Node → String
  | Node.text s => s
  | Node.elem _ _ cs => textList cs
/-- Concatenated subtree text of a list of siblings. -/
def textList : NodeList → String
  | NodeList.nil => ""
  | NodeList.cons n rest => node_text n ++ textList rest
end

/-- `HTMLParser._fill_article_with_text`: take all `div` descendants; when
there is at least one, search the first of them for the fixed body-text
class and set `article.text` to the separator-free concatenation of the
matched blocks' visible text. -/
def fill_article_with_text (a : Article) (soup : Node) : Article :=
  match (descendants soup).filter (hasTag "div") with
  | [] => a
  | first :: _ =>
    let all_divs := (descendants first).filter
        (divWithClass "categories-block__figure border-radius4px")
    { a with text := String.join (all_divs.map node_text) }

/-- The state of an `HTMLParser`: constructor arguments plus the article
record created in `__init__`. -/
structure HTMLParser where
  full_url : String
  article_id : Int
  config : Config
  article : Article

/-- `HTMLParser.__init__`: stores the url, id and configuration and creates
`self.article = Article(full_url, article_id)`. -/
def HTMLParser.init (full_url : String) (article_id : Int) (config : Config) :
    HTMLParser :=
  ⟨full_url, article_id, config, Article.init full_url article_id⟩

/-- `HTMLParser.parse`: one fetch; on a truthy `response.ok` fill the article
text from the parsed body; in every completed-fetch case return
`self.article`; a raised requests exception propagates. -/
def HTMLParser.parse (net : String → FetchOutcome) (r : Nat)
    (p : HTMLParser) : Except PyErr Article :=
  match (make_request net r p.full_url p.config).2 with
  | Except.error e => Except.error e
  | Except.ok resp =>
    if resp.ok then Except.ok (fill_article_with_text p.article resp.body)
    else Except.ok p.article

/-- An absolute filesystem path as a list of components. -/
abbrev FPath := List String

/-- A snapshot of the filesystem as the embedded `os` calls observe it: the
process working directory (against which relative names resolve), the
existing directories and the existing regular files. -/
structure FS where
  cwd : FPath
  dirs : List FPath
  files : List FPath
  deriving DecidableEq, Repr

/-- `os.path.exists` on an absolute path. -/
def path_exists (fs : FS) (p : FPath) : Bool :=
  fs.dirs.contains p || fs.files.contains p

/-- The name of `q` when `q` is a direct child of `base`. -/
def child_name (base q : FPath) : Option String :=
  if q.take base.length = base ∧ q.length = base.length + 1 then q.getLast?
  else none

/-- `os.listdir(base)`: the names of the direct children of `base`. -/
def listdir (fs : FS) (base : FPath) : List String :=
  fs.files.filterMap (child_name base) ++ fs.dirs.filterMap (child_name base)

/-- `os.makedirs(p)`: create the directory and every missing ancestor. -/
def makedirs (fs : FS) (p : FPath) : FS :=
  { fs with dirs := fs.dirs ++
      (((List.range p.length).map (fun i => p.take (i + 1))).filter
        (fun q => ¬ path_exists fs q)) }

/-- `os.remove(p)`: delete a regular file; a directory raises
`IsADirectoryError`, a missing path raises `FileNotFoundError`. -/
def os_remove (fs : FS) (p : FPath) : Except PyErr FS :=
  if fs.files.contains p then .ok { fs with files := fs.files.filter (fun q => q ≠ p) }
  else if fs.dirs.contains p then .error PyErr.isADirectoryError
  else .error PyErr.fileNotFoundError

/-- `prepare_environment(base_path)`: when the path does not exist, create it
with parents; otherwise take the directory listing of `base_path` and, for
each listed bare name, test existence and remove it — both resolved against
the process working directory, exactly as the unjoined `file` variable is in
the source. -/
def prepare_environment (fs : FS) (base : FPath) : Except PyErr FS :=
  if path_exists fs base then
    (listdir fs base).foldlM (fun s n =>
      if path_exists s (s.cwd ++ [n]) then os_remove s (s.cwd ++ [n])
      else .ok s) fs
  else .ok (makedirs fs base)

/-!
Derived notions used to state the claims, and fixtures for the concrete
counterexamples and witnesses.
-/

/-- The hrefs of all anchors inside all matching link containers of a page,
in document order (containers outermost, anchors within each container). -/
def hrefSeq (doc : Node) : List String :=
  (promoDivs doc).flatMap (fun e => (anchorsOf e).filterMap (fun a => attrOf a "href"))

/-- Every anchor inside a matching link container carries an `href`
attribute (so `link['href']` raises no `KeyError`). -/
def AnchorsHaveHref (doc : Node) : Prop :=
  ∀ e ∈ promoDivs doc, ∀ a ∈ anchorsOf e, (attrOf a "href").isSome = true

instance (doc : Node) : Decidable (AnchorsHaveHref doc) := by
  unfold AnchorsHaveHref
  exact inferInstance

/-- The single URL `find_articles` appends for a successfully fetched seed
page: the origin constant concatenated with the last href over the page's
matching containers (the empty string when there is none). -/
def page_url (net : String → FetchOutcome) (u : String) : String :=
  match net u with
  | FetchOutcome.success resp => url_pattern ++ (hrefSeq resp.body).getLastD ""
  | FetchOutcome.raised => ""

/-- The fetch of `u` completes with a truthy `response.ok` and a body whose
matching containers' anchors all carry hrefs. -/
def GoodSeed (net : String → FetchOutcome) (u : String) : Prop :=
  ∃ resp, net u = FetchOutcome.success resp ∧ resp.ok = true ∧ AnchorsHaveHref resp.body

/-- The fetch of `u` completes (no raised exception) with a falsy
`response.ok`, i.e. an HTTP status of 400 or above. -/
def BadStatusAt (net : String → FetchOutcome) (u : String) : Prop :=
  ∃ resp, net u = FetchOutcome.success resp ∧ resp.ok = false

/-- The fetch of `u` completes with a truthy `response.ok` and a body that
contains no matching link container at all. -/
def EmptySeed (net : String → FetchOutcome) (u : String) : Prop :=
  ∃ resp, net u = FetchOutcome.success resp ∧ resp.ok = true ∧ promoDivs resp.body = []

/-- An `<a href=...>` element. -/
def anchorN (href : String) : Node := Node.elem "a" [("href", href)] NodeList.nil

/-- A link container carrying the fixed class tokens. -/
def promoDivN (cs : List Node) : Node :=
  Node.elem "div" [("class", "figcaption promo-link")] (nlOf cs)

/-- A listing page with two matching containers of one anchor each. -/
def pageTwo : Node :=
  Node.elem "[document]" []
    (nlOf [Node.elem "body" [] (nlOf [promoDivN [anchorN "/a"], promoDivN [anchorN "/b"]])])

/-- A listing page without any matching link container. -/
def pageNoContainers : Node :=
  Node.elem "[document]" []
    (nlOf [Node.elem "body" []
      (nlOf [Node.elem "div" [("class", "other")] (nlOf [anchorN "/c"]), Node.text "hi"])])

/-- A valid configuration fixture. -/
def cfg0 : Config := ⟨["https://www.21mm.ru/news/"], 5, [], "utf-8", 5, true, false⟩

/-- A degenerate random source. -/
def rng0 : Nat → Nat := fun _ => 0

/-- A network that always answers 200 with `pageTwo`. -/
def netTwo : String → FetchOutcome := fun _ => FetchOutcome.success ⟨200, pageTwo⟩

/-- A network that always answers 200 with `pageNoContainers`. -/
def netNoContainers : String → FetchOutcome :=
  fun _ => FetchOutcome.success ⟨200, pageNoContainers⟩

/-- A network on which every request raises (connection error / timeout). -/
def netRaise : String → FetchOutcome := fun _ => FetchOutcome.raised

/-- A network that always answers with HTTP status 404. -/
def net400 : String → FetchOutcome := fun _ => FetchOutcome.success ⟨404, pageTwo⟩

/-- A `ConfigDTO` whose fields are all valid except possibly the seeds. -/
def dtoWithSeeds (seeds : PyVal) : ConfigDTO :=
  ⟨seeds, PyVal.int 5, PyVal.dict [], PyVal.str "utf-8", PyVal.int 5,
    PyVal.bool true, PyVal.bool false⟩

/-- `dtoWithSeeds` with a single string seed URL. -/
def dtoWithSeed (s : String) : ConfigDTO := dtoWithSeeds (PyVal.list [PyVal.str s])

/-- A filesystem whose working directory is `/home/user`, with an output
directory `/out` containing the stale file `/out/doc1`. -/
def fs0 : FS := ⟨["home", "user"], [["out"]], [["out", "doc1"]]⟩

/-- A `ConfigDTO` whose article count is the out-of-range integer 200 and
whose other fields are valid. -/
def dto200 : ConfigDTO :=
  ⟨PyVal.list [PyVal.str "https://www.21mm.ru/news/"], PyVal.int 200, PyVal.dict [],
    PyVal.str "utf-8", PyVal.int 5, PyVal.bool true, PyVal.bool false⟩

/-- The article count passes both the type check and the range check. -/
def CountOk (d : ConfigDTO) : Prop :=
  pyIsInt d.total_articles = true ∧ 0 < pyToInt d.total_articles ∧
    pyToInt d.total_articles ≤ 150

/-- The timeout passes its type and range check. -/
def TimeoutOk (d : ConfigDTO) : Prop :=
  pyIsInt d.timeout = true ∧ 0 ≤ pyToInt d.timeout ∧ pyToInt d.timeout ≤ 60

/-!
Helper lemmas shared by the claim theorems.
-/

theorem getLastD_append (l1 l2 : List String) (d : String) :
    (l1 ++ l2).getLastD d = l2.getLastD (l1.getLastD d) := by
  simp only [List.getLastD_eq_getLast?, List.getLast?_append]
  cases l2.getLast? <;> simp [Option.or]

theorem anchors_fold (as : List Node) (u : String)
    (h : ∀ a ∈ as, (attrOf a "href").isSome = true) :
    as.foldlM (fun _ link => href_of link) u
      = Except.ok ((as.filterMap (fun a => attrOf a "href")).getLastD u) := by
  induction as generalizing u with
  | nil => rfl
  | cons a t ih =>
    obtain ⟨h0, hh0⟩ := Option.isSome_iff_exists.mp (h a (by simp))
    rw [List.foldlM_cons, List.filterMap_cons, hh0]
    simp only [href_of, hh0, List.getLastD_cons]
    exact ih h0 (fun a' ha' => h a' (by simp [ha']))

theorem links_fold (links : List Node) (u : String)
    (h : ∀ e ∈ links, ∀ a ∈ anchorsOf e, (attrOf a "href").isSome = true) :
    links.foldlM (fun v each => (anchorsOf each).foldlM (fun _ link => href_of link) v) u
      = Except.ok ((links.flatMap
          (fun e => (anchorsOf e).filterMap (fun a => attrOf a "href"))).getLastD u) := by
  induction links generalizing u with
  | nil => rfl
  | cons e t ih =>
    rw [List.foldlM_cons, anchors_fold (anchorsOf e) u (h e (by simp)),
      List.flatMap_cons, getLastD_append]
    exact ih _ (fun e' he' => h e' (by simp [he']))

theorem extract_url_last (doc : Node) (h : AnchorsHaveHref doc) :
    extract_url doc = Except.ok (url_pattern ++ (hrefSeq doc).getLastD "") := by
  simp only [extract_url]
  rw [links_fold (promoDivs doc) "" h]
  rfl

theorem crawl_fold_good (net : String → FetchOutcome) (rng : Nat → Nat) (cfg : Config)
    (seeds : List String) (h : ∀ u ∈ seeds, GoodSeed net u) :
    ∀ (acc : List String) (i : Nat),
    seeds.foldlM (crawl_step net rng cfg) (acc, i)
      = Except.ok (acc ++ seeds.map (page_url net), i + seeds.length) := by
  induction seeds with
  | nil =>
    intro acc i
    simp only [List.map_nil, List.append_nil, List.length_nil, Nat.add_zero]
    rfl
  | cons s t ih =>
    intro acc i
    obtain ⟨resp, hn, hok, hh⟩ := h s (by simp)
    have hstep : crawl_step net rng cfg (acc, i) s
        = Except.ok (acc ++ [page_url net s], i + 1) := by
      simp only [crawl_step, make_request, hn, hok]
      rw [extract_url_last resp.body hh]
      simp [page_url, hn]
    rw [List.foldlM_cons, hstep]
    have htail := ih (fun u hu => h u (by simp [hu])) (acc ++ [page_url net s]) (i + 1)
    show t.foldlM (crawl_step net rng cfg) (acc ++ [page_url net s], i + 1) = _
    rw [htail]
    simp [List.append_assoc]
    omega

theorem crawl_fold_bad (net : String → FetchOutcome) (rng : Nat → Nat) (cfg : Config)
    (seeds : List String) (h : ∀ u ∈ seeds, BadStatusAt net u) :
    ∀ (acc : List String) (i : Nat),
    seeds.foldlM (crawl_step net rng cfg) (acc, i) = Except.ok (acc, i + seeds.length) := by
  induction seeds with
  | nil => intro acc i; rfl
  | cons s t ih =>
    intro acc i
    obtain ⟨resp, hn, hok⟩ := h s (by simp)
    have hstep : crawl_step net rng cfg (acc, i) s = Except.ok (acc, i + 1) := by
      simp [crawl_step, make_request, hn, hok]
      rfl
    rw [List.foldlM_cons, hstep]
    have htail := ih (fun u hu => h u (by simp [hu])) acc (i + 1)
    show t.foldlM (crawl_step net rng cfg) (acc, i + 1) = _
    rw [htail]
    simp
    omega

/-!
The claim theorems, with their counterexamples and witnesses.
-/

/-- Claim C1 counterexample: on a network error (raised requests exception)
the fetch failure is not reported as a boolean-like signal — `find_articles`
propagates the raised fault, aborting the whole run, contrary to the claim
that no per-URL fetch failure aborts it. -/
theorem network_error_aborts_find_articles :
    find_articles netRaise rng0 (Crawler.init cfg0)
      = Except.error PyErr.requestException := rfl

/-- Claim C1 (amended): only completed fetches with a failing HTTP status are
reported via the boolean `response.ok` and handled non-exceptionally —
`find_articles` skips every such seed page and returns with `urls` unchanged,
and `parse` returns the unmodified article record; raised network errors and
timeouts, by contrast, propagate (see the counterexample). -/
theorem status_failures_are_skipped_not_raised
    (net : String → FetchOutcome) (rng : Nat → Nat) (c : Crawler)
    (p : HTMLParser) (r : Nat)
    (hseeds : ∀ u ∈ get_search_urls c, BadStatusAt net u)
    (hp : BadStatusAt net p.full_url) :
    find_articles net rng c = Except.ok c
      ∧ HTMLParser.parse net r p = Except.ok p.article := by
  constructor
  · unfold find_articles
    rw [crawl_fold_bad net rng c.config (get_search_urls c) hseeds [] 0]
    simp
  · obtain ⟨resp, hn, hok⟩ := hp
    simp [HTMLParser.parse, make_request, hn, hok]

/-- Witness for C1's amended theorem at a concrete all-404 network. -/
theorem status_failures_are_skipped_not_raised_witness :
    find_articles net400 rng0 (Crawler.init cfg0) = Except.ok (Crawler.init cfg0)
      ∧ HTMLParser.parse net400 0 (HTMLParser.init "https://www.21mm.ru/x" 1 cfg0)
          = Except.ok (HTMLParser.init "https://www.21mm.ru/x" 1 cfg0).article :=
  status_failures_are_skipped_not_raised net400 rng0 (Crawler.init cfg0)
    (HTMLParser.init "https://www.21mm.ru/x" 1 cfg0) 0
    (fun _ _ => ⟨⟨404, pageTwo⟩, rfl, rfl⟩)
    ⟨⟨404, pageTwo⟩, rfl, rfl⟩

/-- Claim C2 counterexample: a successfully fetched page with two matching
link containers (one anchor each) contributes a single URL — the origin
concatenated with the second container's href — not one URL per container as
the claim states. -/
theorem two_containers_yield_single_url :
    find_articles netTwo rng0 (Crawler.init cfg0)
        = Except.ok { config := cfg0, urls := ["https://www.21mm.ru/b"] }
      ∧ (promoDivs pageTwo).length = 2 := ⟨rfl, rfl⟩

/-- Claim C2 (amended): for every successfully fetched seed page, discovery
appends exactly one URL for the whole page: the origin constant concatenated
with the last anchor's href over all matching containers in document order
(later containers and later anchors override earlier ones). -/
theorem find_articles_appends_one_url_per_page
    (net : String → FetchOutcome) (rng : Nat → Nat) (c : Crawler)
    (h : ∀ u ∈ get_search_urls c, GoodSeed net u) :
    find_articles net rng c
      = Except.ok { c with urls := c.urls ++ (get_search_urls c).map (page_url net) } := by
  unfold find_articles
  rw [crawl_fold_good net rng c.config (get_search_urls c) h [] 0]
  simp

/-- Witness for C2's amended theorem on the two-container page. -/
theorem find_articles_appends_one_url_per_page_witness :
    find_articles netTwo rng0 (Crawler.init cfg0)
      = Except.ok { config := cfg0, urls :=
          (get_search_urls (Crawler.init cfg0)).map (page_url netTwo) } :=
  find_articles_appends_one_url_per_page netTwo rng0 (Crawler.init cfg0)
    (fun _ _ => ⟨⟨200, pageTwo⟩, rfl, rfl, by decide⟩)

/-- Claim C3 counterexample: a successfully fetched seed page with zero
matching link containers does not contribute zero URLs — the bare origin
string is appended for it. -/
theorem no_container_page_contributes_origin :
    find_articles netNoContainers rng0 (Crawler.init cfg0)
        = Except.ok { config := cfg0, urls := ["https://www.21mm.ru"] }
      ∧ promoDivs pageNoContainers = [] := ⟨rfl, rfl⟩

/-- Claim C3 (amended): for every successfully fetched seed page whose HTML
contains zero matching link containers, discovery raises no error and
appends exactly one URL for the page: the bare origin string. -/
theorem no_container_pages_append_bare_origin
    (net : String → FetchOutcome) (rng : Nat → Nat) (c : Crawler)
    (h : ∀ u ∈ get_search_urls c, EmptySeed net u) :
    find_articles net rng c
      = Except.ok { c with urls := c.urls ++ (get_search_urls c).map (fun _ => url_pattern) } := by
  have hg : ∀ u ∈ get_search_urls c, GoodSeed net u := by
    intro u hu
    obtain ⟨resp, hn, hok, hpd⟩ := h u hu
    exact ⟨resp, hn, hok, by unfold AnchorsHaveHref; rw [hpd]; simp⟩
  have hmap : (get_search_urls c).map (page_url net)
      = (get_search_urls c).map (fun _ => url_pattern) := by
    apply List.map_congr_left
    intro u hu
    obtain ⟨resp, hn, hok, hpd⟩ := h u hu
    simp [page_url, hn, hrefSeq, hpd, String.append_empty]
  unfold find_articles
  rw [crawl_fold_good net rng c.config (get_search_urls c) hg [] 0]
  simp [hmap]

/-- Witness for C3's amended theorem on the container-free page. -/
theorem no_container_pages_append_bare_origin_witness :
    find_articles netNoContainers rng0 (Crawler.init cfg0)
      = Except.ok { config := cfg0, urls :=
          (get_search_urls (Crawler.init cfg0)).map (fun _ => url_pattern) } :=
  no_container_pages_append_bare_origin netNoContainers rng0 (Crawler.init cfg0)
    (fun _ _ => ⟨⟨200, pageNoContainers⟩, rfl, rfl, rfl⟩)

/-- Claim C4 counterexample: a configuration whose `seed_urls` is the empty
list is accepted by validation (the `all(...)` over an empty generator is
vacuously true), not rejected with `IncorrectSeedURLError`. -/
theorem empty_seed_list_accepted :
    validate_config_content (dtoWithSeeds (PyVal.list [])) = Except.ok ()
      ∧ validate_config_content (dtoWithSeeds (PyVal.list []))
          ≠ Except.error PyErr.incorrectSeedURLError := by
  refine ⟨rfl, ?_⟩
  intro hcontra
  rw [(rfl : validate_config_content (dtoWithSeeds (PyVal.list [])) = Except.ok ())] at hcontra
  exact Except.noConfusion hcontra

/-- Claim C4 (amended): a configuration whose `seed_urls` is not a list is
rejected as a whole with `IncorrectSeedURLError` before any other check; an
empty seed list, however, passes the seed check vacuously (see the
counterexample). -/
theorem nonlist_seed_urls_rejected (d : ConfigDTO)
    (h : pyIsList d.seed_urls = false) :
    validate_config_content d = Except.error PyErr.incorrectSeedURLError := by
  have hs : seed_stage d.seed_urls = Except.ok false := by
    cases hv : d.seed_urls <;> simp_all [seed_stage, pyIsList]
  unfold validate_config_content
  rw [hs]
  simp

/-- Witness for C4's amended theorem: an integer in place of the seed list. -/
theorem nonlist_seed_urls_rejected_witness :
    validate_config_content (dtoWithSeeds (PyVal.int 3))
      = Except.error PyErr.incorrectSeedURLError :=
  nonlist_seed_urls_rejected (dtoWithSeeds (PyVal.int 3)) rfl

/-- Claim C5 counterexample: the canonical origin without the `www.` prefix,
`https://21mm.ru/...`, fails the seed pattern (the regex demands a literal
dot right before `21mm`), while a URL on the foreign host
`www.21mm-ru.evil.com` passes it (the dot of `.ru` is an unescaped wildcard
and the match is unanchored at the end) — both opposite to the claim. -/
theorem seed_pattern_rejects_bare_host_accepts_foreign :
    validate_config_content (dtoWithSeed "https://21mm.ru/news/")
        = Except.error PyErr.incorrectSeedURLError
      ∧ validate_config_content (dtoWithSeed "https://www.21mm-ru.evil.com/x")
          = Except.ok () := ⟨rfl, rfl⟩

/-- Claim C5 (amended): the seed pattern accepts any URL that begins with
`https://www.21mm` followed by any character and `ru`, whatever follows (so
every `https://www.21mm.ru...` seed passes, but so do foreign hosts such as
`www.21mm-ru.evil.com`), and rejects every URL beginning `https://21mm.ru`:
without `www` the required literal dot before `21mm` is missing. -/
theorem seed_pattern_requires_dot_before_host (rest : String) :
    validate_config_content (dtoWithSeed ("https://www.21mm.ru" ++ rest)) = Except.ok ()
      ∧ validate_config_content (dtoWithSeed ("https://21mm.ru" ++ rest))
          = Except.error PyErr.incorrectSeedURLError := ⟨rfl, rfl⟩

/-- Witness for C5's amended theorem at `rest = "/news/"`. -/
theorem seed_pattern_requires_dot_before_host_witness :
    validate_config_content (dtoWithSeed ("https://www.21mm.ru" ++ "/news/")) = Except.ok ()
      ∧ validate_config_content (dtoWithSeed ("https://21mm.ru" ++ "/news/"))
          = Except.error PyErr.incorrectSeedURLError :=
  seed_pattern_requires_dot_before_host "/news/"

/-- Claim C7: `HTMLParser.parse` on a URL whose fetch completes with a
failing HTTP status returns the article record unmodified — empty `text`,
and `url` and `id` exactly as given to the constructor — and raises nothing. -/
theorem parse_failed_fetch_returns_unmodified_record
    (net : String → FetchOutcome) (r : Nat) (url : String) (id : Int)
    (cfg : Config) (h : BadStatusAt net url) :
    HTMLParser.parse net r (HTMLParser.init url id cfg)
      = Except.ok { url := url, article_id := id, text := "" } := by
  obtain ⟨resp, hn, hok⟩ := h
  simp [HTMLParser.parse, HTMLParser.init, Article.init, make_request, hn, hok]

/-- Witness for C7 at a concrete 404 network. -/
theorem parse_failed_fetch_returns_unmodified_record_witness :
    HTMLParser.parse net400 0 (HTMLParser.init "https://www.21mm.ru/a/9" 9 cfg0)
      = Except.ok { url := "https://www.21mm.ru/a/9", article_id := 9, text := "" } :=
  parse_failed_fetch_returns_unmodified_record net400 0 "https://www.21mm.ru/a/9" 9 cfg0
    ⟨⟨404, pageTwo⟩, rfl, rfl⟩

/-- Claim C10: the URL discovery produces for a parsed seed page is always
the fixed origin string concatenated with the last extracted href — no URL
resolution happens, so an absolute href yields a value containing two
origins — and when no matching container holds an anchor the bare origin
itself is the result. -/
theorem extract_url_concats_origin_with_last_href (doc : Node)
    (h : AnchorsHaveHref doc) :
    extract_url doc = Except.ok (url_pattern ++ (hrefSeq doc).getLastD "")
      ∧ (hrefSeq doc = [] → extract_url doc = Except.ok url_pattern) := by
  refine ⟨extract_url_last doc h, ?_⟩
  intro he
  rw [extract_url_last doc h, he]
  simp [String.append_empty]

/-- Witness for C10 on the two-container page: the last href wins and the
result is plain concatenation. -/
theorem extract_url_concats_origin_with_last_href_witness :
    extract_url pageTwo = Except.ok "https://www.21mm.ru/b" :=
  ((extract_url_concats_origin_with_last_href pageTwo (by decide)).1).trans rfl

/-- Claim C6 (code bug): on a filesystem whose working directory is
`/home/user` and whose existing output directory `/out` holds the stale file
`/out/doc1`, `prepare_environment` returns with the filesystem unchanged —
the listed bare name `doc1` is existence-checked and removed relative to the
working directory instead of `/out`, so the file directly inside the base
path survives, contrary to the claim (and to the function's purpose of
clearing stale output). -/
theorem prepare_environment_misses_files_in_base :
    prepare_environment fs0 ["out"] = Except.ok fs0
      ∧ ["out", "doc1"] ∈ fs0.files := ⟨rfl, by decide⟩

/-- Claim C8: validation checks the fields in the fixed source order — seed
URL shape, article count type, article count range, header type, encoding
type, timeout type/range, boolean-flag types — and raises the error kind of
the first violated check: each conjunct states that when all earlier checks
pass and one check fails, exactly that check's exception kind is raised; in
particular a non-integer or non-positive count raises
`IncorrectNumberOfArticlesError` before the range check, and an integer
count above 150 raises `NumberOfArticlesOutOfRangeError`. -/
theorem validator_checks_in_fixed_order (d : ConfigDTO) :
    (seed_stage d.seed_urls = Except.ok false →
      validate_config_content d = Except.error PyErr.incorrectSeedURLError)
  ∧ (seed_stage d.seed_urls = Except.ok true →
      ((¬ pyIsInt d.total_articles = true ∨ pyToInt d.total_articles ≤ 0) →
        validate_config_content d = Except.error PyErr.incorrectNumberOfArticlesError)
    ∧ (pyIsInt d.total_articles = true → 150 < pyToInt d.total_articles →
        validate_config_content d = Except.error PyErr.numberOfArticlesOutOfRangeError)
    ∧ (CountOk d → ¬ pyIsDict d.headers = true →
        validate_config_content d = Except.error PyErr.incorrectHeadersError)
    ∧ (CountOk d → pyIsDict d.headers = true → ¬ pyIsStr d.encoding = true →
        validate_config_content d = Except.error PyErr.incorrectEncodingError)
    ∧ (CountOk d → pyIsDict d.headers = true → pyIsStr d.encoding = true →
        ¬ TimeoutOk d →
        validate_config_content d = Except.error PyErr.incorrectTimeoutError)
    ∧ (CountOk d → pyIsDict d.headers = true → pyIsStr d.encoding = true →
        TimeoutOk d →
        (¬ pyIsBool d.should_verify_certificate = true ∨
          ¬ pyIsBool d.headless_mode = true) →
        validate_config_content d = Except.error PyErr.incorrectVerifyError)) := by
  constructor
  · intro hs
    unfold validate_config_content
    rw [hs]
    simp
  · intro hs
    unfold validate_config_content
    rw [hs]
    refine ⟨?_, ?_, ?_, ?_, ?_, ?_⟩
    · intro hbad
      simp only [if_neg (by simp : ¬ (true = false)), if_pos hbad]
    · intro hint hgt
      have h2 : ¬ (¬ pyIsInt d.total_articles = true ∨ pyToInt d.total_articles ≤ 0) := by
        simp [hint]; omega
      have h3 : ¬ (0 < pyToInt d.total_articles ∧ pyToInt d.total_articles ≤ 150) := by
        omega
      simp only [if_neg (by simp : ¬ (true = false)), if_neg h2, if_pos h3]
    · intro hc hhd
      obtain ⟨hint, hpos, hle⟩ := hc
      have h2 : ¬ (¬ pyIsInt d.total_articles = true ∨ pyToInt d.total_articles ≤ 0) := by
        simp [hint]; omega
      have h3 : ¬ ¬ (0 < pyToInt d.total_articles ∧ pyToInt d.total_articles ≤ 150) := by
        omega
      simp only [if_neg (by simp : ¬ (true = false)), if_neg h2, if_neg h3, if_pos hhd]
    · intro hc hdict henc
      obtain ⟨hint, hpos, hle⟩ := hc
      have h2 : ¬ (¬ pyIsInt d.total_articles = true ∨ pyToInt d.total_articles ≤ 0) := by
        simp [hint]; omega
      have h3 : ¬ ¬ (0 < pyToInt d.total_articles ∧ pyToInt d.total_articles ≤ 150) := by
        omega
      have h4 : ¬ ¬ pyIsDict d.headers = true := by simp [hdict]
      simp only [if_neg (by simp : ¬ (true = false)), if_neg h2, if_neg h3, if_neg h4,
        if_pos henc]
    · intro hc hdict henc htb
      obtain ⟨hint, hpos, hle⟩ := hc
      have h2 : ¬ (¬ pyIsInt d.total_articles = true ∨ pyToInt d.total_articles ≤ 0) := by
        simp [hint]; omega
      have h3 : ¬ ¬ (0 < pyToInt d.total_articles ∧ pyToInt d.total_articles ≤ 150) := by
        omega
      have h4 : ¬ ¬ pyIsDict d.headers = true := by simp [hdict]
      have h5 : ¬ ¬ pyIsStr d.encoding = true := by simp [henc]
      have h6 : ¬ pyIsInt d.timeout = true ∨
          ¬ (0 ≤ pyToInt d.timeout ∧ pyToInt d.timeout ≤ 60) := by
        by_contra hno
        push_neg at hno
        exact htb ⟨hno.1, hno.2.1, hno.2.2⟩
      simp only [if_neg (by simp : ¬ (true = false)), if_neg h2, if_neg h3, if_neg h4,
        if_neg h5, if_pos h6]
    · intro hc hdict henc hto hbools
      obtain ⟨hint, hpos, hle⟩ := hc
      obtain ⟨hti, htlo, hthi⟩ := hto
      have h2 : ¬ (¬ pyIsInt d.total_articles = true ∨ pyToInt d.total_articles ≤ 0) := by
        simp [hint]; omega
      have h3 : ¬ ¬ (0 < pyToInt d.total_articles ∧ pyToInt d.total_articles ≤ 150) := by
        omega
      have h4 : ¬ ¬ pyIsDict d.headers = true := by simp [hdict]
      have h5 : ¬ ¬ pyIsStr d.encoding = true := by simp [henc]
      have h6 : ¬ (¬ pyIsInt d.timeout = true ∨
          ¬ (0 ≤ pyToInt d.timeout ∧ pyToInt d.timeout ≤ 60)) := by
        simp [hti]; omega
      simp only [if_neg (by simp : ¬ (true = false)), if_neg h2, if_neg h3, if_neg h4,
        if_neg h5, if_neg h6, if_pos hbools]

/-- Witness for C8: an integer count of 200 with all other fields valid is
rejected with exactly the range-error kind. -/
theorem validator_checks_in_fixed_order_witness :
    validate_config_content dto200
      = Except.error PyErr.numberOfArticlesOutOfRangeError :=
  ((validator_checks_in_fixed_order dto200).2 rfl).2.1 rfl (by decide)

/-- Claim C9: before every single fetch, whatever its outcome,
`make_request` sleeps a duration drawn by `randrange(3)` — an integer
uniform over the half-open range `[0, 3)`: the duration is always below 3,
each of the three durations is hit by exactly one residue of the entropy
source per period, and the draw is 3-periodic in the entropy — and then
issues exactly one GET event carrying the configured headers, timeout and
certificate-verification flag, with no retry. -/
theorem make_request_sleeps_then_issues_one_get
    (net : String → FetchOutcome) (r : Nat) (url : String) (cfg : Config) :
    (make_request net r url cfg).1
        = [Event.sleepEv (randrange3 r),
           Event.getEv ⟨url, cfg.headers, cfg.timeout, cfg.should_verify_certificate⟩]
      ∧ randrange3 r < 3
      ∧ ((make_request net r url cfg).1.filter Event.isGet).length = 1
      ∧ (∀ d, d < 3 →
          ((Finset.range 3).filter (fun k => randrange3 k = d)).card = 1)
      ∧ (∀ k, randrange3 (k + 3) = randrange3 k) := by
  refine ⟨rfl, Nat.mod_lt r (by decide), rfl, ?_, fun k => Nat.add_mod_right k 3⟩
  intro d hd
  interval_cases d <;> decide

/-- Witness for C9 at concrete entropy values. -/
theorem make_request_sleeps_then_issues_one_get_witness :
    randrange3 7 < 3
      ∧ ((Finset.range 3).filter (fun k => randrange3 k = 2)).card = 1 :=
  ⟨(make_request_sleeps_then_issues_one_get netRaise 7 "u" cfg0).2.1,
    (make_request_sleeps_then_issues_one_get netRaise 7 "u" cfg0).2.2.2.1 2 (by decide)⟩

end Scrapper
